import Mathlib

/-!
# hapi: JSON responses and error bodies

A shallow embedding of `respond.go`.  The HTTP response writer is explicit
state (headers, status, body) that follows the writer of `net/http`: its
`WriteHeader` panics on a status code outside 100..999 and its `Write` refuses
a body under a status that allows none.  The process-wide `Config` is passed
as an argument, and the two standard-library functions the file calls
(`json.Marshal`, `http.StatusText`) are the fields of `Lib`.  A run-time
panic is a value of `Outcome`.
-/

namespace hapi

/-! ## Data model -/

/-- Process-wide settings read by `respond.go` (the Go global `Config`). -/
structure Config where
  ReturnNulls : Bool
  DefaultStatusCode : Int
  DefaultErrorMessage : String
  ReturnRawError : Bool
deriving DecidableEq, Repr

/-- Modelled from the spec: the `ErrorResponse` struct, declared outside
`respond.go`; the wire payload `{ message: string, rawError?: string }`. -/
structure ErrorResponse where
  Message : String
  RawError : String
deriving DecidableEq, Repr

/-- Modelled from the spec: `NewErrorResponse(message)`, declared outside
`respond.go`; it builds an `ErrorResponse` carrying only the message. -/
def NewErrorResponse (message : String) : ErrorResponse :=
  { Message := message, RawError := "" }

/-- The methods `GetStatusCode` and `GetMessage` of the `hapiError` interface,
for an error whose dynamic type has them. -/
structure hapiError where
  GetStatusCode : Int
  GetMessage : String
deriving DecidableEq, Repr

/-- A non-nil Go `error` value: the text of `Error()` and, when its dynamic
type implements `hapiError`, the results of the two extra methods.  A nil
`error` is `none : Option GoError`. -/
structure GoError where
  Error : String
  asHapi : Option hapiError
deriving DecidableEq, Repr

/-- A Go `interface{}` payload: the nil interface, an `ErrorResponse`, or any
other non-nil value (of a type `α` chosen by the caller). -/
inductive Payload (α : Type) where
  | nil : Payload α
  | errorResponse (r : ErrorResponse) : Payload α
  | value (v : α) : Payload α
deriving DecidableEq, Repr

/-- The test `payload == nil` on an `interface{}`. -/
def Payload.isNil {α : Type} : Payload α → Bool
  | Payload.nil => true
  | _ => false

/-- The value of `errors.InternalServerError.Wrap(cause, message)`, kept
symbolic: the text of the wrapped cause and the message put around it. -/
structure WrappedError where
  cause : String
  message : String
deriving DecidableEq, Repr

/-- The call `errors.InternalServerError.Wrap(err, msg)` of package `errors`. -/
def InternalServerError_Wrap (cause : String) (message : String) : WrappedError :=
  { cause := cause, message := message }

/-- The standard-library functions `respond.go` calls: `json.Marshal`
(the encoded bytes, or the text of the encoder's error) and
`http.StatusText`. -/
structure Lib (α : Type) where
  Marshal : Payload α → Except String String
  StatusText : Int → String

/-! ## Status codes and checks of `net/http` -/

namespace http

def StatusOK : Int := 200
def StatusBadRequest : Int := 400
def StatusUnauthorized : Int := 401
def StatusForbidden : Int := 403
def StatusNotFound : Int := 404
def StatusRequestEntityTooLarge : Int := 413
def StatusTeapot : Int := 418
def StatusInternalServerError : Int := 500
def StatusSwitchingProtocols : Int := 101

/-- `checkWriteHeaderCode(code)` of `net/http`: `false` stands for its panic
("invalid WriteHeader code"), raised for a code below 100 or above 999. -/
def checkWriteHeaderCode (code : Int) : Bool :=
  !(decide (code < 100) || decide (code > 999))

/-- `bodyAllowedForStatus(status)` of `net/http`: no body under a 1xx status,
under 204 and under 304. -/
def bodyAllowedForStatus (status : Int) : Bool :=
  if 100 ≤ status ∧ status ≤ 199 then false
  else if status = 204 then false
  else if status = 304 then false
  else true

/-- The text of `http.ErrBodyNotAllowed`. -/
def ErrBodyNotAllowed : String :=
  "http: request method or response status code does not allow body"

end http

/-! ## The response writer -/

/-- An `http.ResponseWriter` as explicit state, after the writer of the
`net/http` server: the header map, whether the status line has been written
and with which code, the body bytes accepted so far, and two facts about the
implementation behind the interface.  `fault = some (n, msg)` is a transport
on which a `Write` accepts at most `n` bytes and returns the error `msg`.
`informational` says whether a 1xx code other than 101 is sent as an
informational response that leaves the status line unwritten (the current
`net/http`) or is written as the status line like any other code (earlier
versions). -/
structure ResponseWriter where
  header : List (String × String)
  wroteHeader : Bool
  status : Int
  body : String
  fault : Option (Nat × String)
  informational : Bool
deriving DecidableEq, Repr

namespace ResponseWriter

/-- A writer nothing has been written to, over the given transport. -/
def fresh (fault : Option (Nat × String)) : ResponseWriter :=
  { header := [], wroteHeader := false, status := 200, body := "", fault := fault,
    informational := true }

/-- The call `w.Header().Set(key, value)`: it replaces the entry of `key`. -/
def HeaderSet (w : ResponseWriter) (key value : String) : ResponseWriter :=
  { w with header := (key, value) :: w.header.filter (fun kv => kv.1 ≠ key) }

/-- The call `w.Header().Get(key)`. -/
def HeaderGet (w : ResponseWriter) (key : String) : Option String :=
  (w.header.find? (fun kv => kv.1 = key)).map Prod.snd

/-- The call `w.WriteHeader(statusCode)`; `none` is a panic.  Once the status
line is written a further call changes nothing.  Otherwise the code is
checked (`checkWriteHeaderCode` panics outside 100..999), an informational
code leaves the status line unwritten on a writer that sends informational
responses, and any other code is written as the status line. -/
def WriteHeader (w : ResponseWriter) (statusCode : Int) : Option ResponseWriter :=
  if w.wroteHeader then some w
  else if !http.checkWriteHeaderCode statusCode then none
  else if w.informational ∧ 100 ≤ statusCode ∧ statusCode ≤ 199 ∧
      statusCode ≠ http.StatusSwitchingProtocols then some w
  else some { w with wroteHeader := true, status := statusCode }

/-- The call `w.Write(bytes)`: an implicit `WriteHeader(200)` when no status
line has been written; nothing more for an empty slice; the error
`http.ErrBodyNotAllowed`, with no byte written, under a status that allows no
body; otherwise the bytes go to the transport.  The second component is the
error `Write` returns (`none` is `nil`). -/
def Write (w : ResponseWriter) (bytes : String) : ResponseWriter × Option String :=
  let w1 := if w.wroteHeader then w else { w with wroteHeader := true, status := http.StatusOK }
  if bytes = "" then (w1, none)
  else if !http.bodyAllowedForStatus w1.status then (w1, some http.ErrBodyNotAllowed)
  else
    match w1.fault with
    | none => ({ w1 with body := w1.body ++ bytes }, none)
    | some (n, msg) => ({ w1 with body := w1.body ++ String.mk (bytes.data.take n) }, some msg)

end ResponseWriter

/-! ## `respond.go` -/

/-- How a call ends: it returns an error value (`none` is `nil`) leaving the
writer in some state, or it panics. -/
inductive Outcome where
  | returned (err : Option WrappedError) (w : ResponseWriter) : Outcome
  | panicked : Outcome
deriving DecidableEq, Repr

/-- `Respond(w, statusCode, payload)`.  A panic of `w.WriteHeader` ends the
call before the payload is looked at. -/
def Respond {α : Type} (cfg : Config) (lib : Lib α) (w : ResponseWriter)
    (statusCode : Int) (payload : Payload α) : Outcome :=
  let w := w.HeaderSet "Content-Type" "application/json"
  match w.WriteHeader statusCode with
  | none => Outcome.panicked
  | some w =>
    if payload.isNil && !cfg.ReturnNulls then
      Outcome.returned none w
    else
      match lib.Marshal payload with
      | Except.error err =>
        Outcome.returned (some (InternalServerError_Wrap err "failed to marshal payload")) w
      | Except.ok bytes =>
        match w.Write bytes with
        | (w, some err) =>
          Outcome.returned (some (InternalServerError_Wrap err "failed to write bytes")) w
        | (w, none) => Outcome.returned none w

/-- `RespondErrorFallback(w, err, fallbackStatusCode)`.  The type assertion
`err.(hapiError)` fails on a nil `err`; the method call `err.Error()` on a nil
`err` is a nil dereference, a run-time panic. -/
def RespondErrorFallback {α : Type} (cfg : Config) (lib : Lib α) (w : ResponseWriter)
    (err : Option GoError) (fallbackStatusCode : Int) : Outcome :=
  let statusCode := fallbackStatusCode
  let message := cfg.DefaultErrorMessage
  let (statusCode, message) :=
    match err.bind GoError.asHapi with
    | some hapiErr => (hapiErr.GetStatusCode, hapiErr.GetMessage)
    | none => (statusCode, message)
  let message := if message = "" then lib.StatusText statusCode else message
  let errorResponse := NewErrorResponse message
  if cfg.ReturnRawError then
    match err with
    | none => Outcome.panicked
    | some e =>
      let errorResponse := { errorResponse with RawError := e.Error }
      Respond cfg lib w statusCode (Payload.errorResponse errorResponse)
  else
    Respond cfg lib w statusCode (Payload.errorResponse errorResponse)

/-- `RespondError(w, err)`. -/
def RespondError {α : Type} (cfg : Config) (lib : Lib α) (w : ResponseWriter)
    (err : Option GoError) : Outcome :=
  RespondErrorFallback cfg lib w err cfg.DefaultStatusCode

/-- `RespondOK(w, payload)`. -/
def RespondOK {α : Type} (cfg : Config) (lib : Lib α) (w : ResponseWriter)
    (payload : Payload α) : Outcome :=
  Respond cfg lib w http.StatusOK payload

/-- `RespondBadRequest(w, payload)`. -/
def RespondBadRequest {α : Type} (cfg : Config) (lib : Lib α) (w : ResponseWriter)
    (payload : Payload α) : Outcome :=
  Respond cfg lib w http.StatusBadRequest payload

/-- `RespondUnauthorized(w, payload)`. -/
def RespondUnauthorized {α : Type} (cfg : Config) (lib : Lib α) (w : ResponseWriter)
    (payload : Payload α) : Outcome :=
  Respond cfg lib w http.StatusUnauthorized payload

/-- `RespondForbidden(w, payload)`. -/
def RespondForbidden {α : Type} (cfg : Config) (lib : Lib α) (w : ResponseWriter)
    (payload : Payload α) : Outcome :=
  Respond cfg lib w http.StatusForbidden payload

/-- `RespondNotFound(w, payload)`. -/
def RespondNotFound {α : Type} (cfg : Config) (lib : Lib α) (w : ResponseWriter)
    (payload : Payload α) : Outcome :=
  Respond cfg lib w http.StatusNotFound payload

/-- `RespondTooLarge(w, payload)`. -/
def RespondTooLarge {α : Type} (cfg : Config) (lib : Lib α) (w : ResponseWriter)
    (payload : Payload α) : Outcome :=
  Respond cfg lib w http.StatusRequestEntityTooLarge payload

/-- `RespondTeapot(w, payload)`. -/
def RespondTeapot {α : Type} (cfg : Config) (lib : Lib α) (w : ResponseWriter)
    (payload : Payload α) : Outcome :=
  Respond cfg lib w http.StatusTeapot payload

/-- `RespondInternalError(w, payload)`. -/
def RespondInternalError {α : Type} (cfg : Config) (lib : Lib α) (w : ResponseWriter)
    (payload : Payload α) : Outcome :=
  Respond cfg lib w http.StatusInternalServerError payload

/-! ## A concrete standard library

`Lib` is a parameter of every definition above.  `golib` below is one
instance, following the documentation of `encoding/json` and the table of
`net/http`, on a small universe of payload values. -/

/-- Non-nil payload values other than an `ErrorResponse`: a boolean, a
string, and a channel (a value `json.Marshal` rejects). -/
inductive GoValue where
  | bool (b : Bool) : GoValue
  | str (s : String) : GoValue
  | chan : GoValue
deriving DecidableEq, Repr

namespace json

/-- The lower-case hexadecimal digit of `n < 16`. -/
def hex (n : Nat) : Char :=
  "0123456789abcdef".data.getD n '0'

/-- How `encoding/json` (Go 1.22, HTML escaping on) writes one character of
a string: the quote and the backslash behind a backslash, the short escapes
for backspace, form feed, newline, carriage return and tab, `\u00XX` for the
other control characters and for `<`, `>`, `&`, the escapes `\u2028` and
`\u2029` for the two line separators, every other character as it is. -/
def escape (c : Char) : List Char :=
  if c.toNat = 34 then "\\\"".data
  else if c.toNat = 92 then "\\\\".data
  else if c.toNat = 8 then "\\b".data
  else if c.toNat = 12 then "\\f".data
  else if c.toNat = 10 then "\\n".data
  else if c.toNat = 13 then "\\r".data
  else if c.toNat = 9 then "\\t".data
  else if c.toNat < 32 ∨ c.toNat = 60 ∨ c.toNat = 62 ∨ c.toNat = 38 then
    "\\u00".data ++ [hex (c.toNat / 16), hex (c.toNat % 16)]
  else if c.toNat = 8232 then "\\u2028".data
  else if c.toNat = 8233 then "\\u2029".data
  else [c]

/-- A Go string as a JSON string literal. -/
def quote (s : String) : String :=
  "\"" ++ String.mk (s.data.flatMap escape) ++ "\""

/-- Modelled from the spec: the JSON encoding of an `ErrorResponse`, whose
struct tags are declared outside `respond.go`: the key `message` always, the
key `rawError` only when the field is not empty. -/
def marshalErrorResponse (r : ErrorResponse) : String :=
  "\x7b\"message\":" ++ quote r.Message ++
    (if r.RawError = "" then "" else ",\"rawError\":" ++ quote r.RawError) ++ "\x7d"

/-- `json.Marshal` on the payload universe: a nil interface encodes as
`null`, a channel is an unsupported type. -/
def Marshal : Payload GoValue → Except String String
  | Payload.nil => Except.ok "null"
  | Payload.errorResponse r => Except.ok (marshalErrorResponse r)
  | Payload.value (GoValue.bool b) => Except.ok (if b then "true" else "false")
  | Payload.value (GoValue.str s) => Except.ok (quote s)
  | Payload.value GoValue.chan => Except.error "json: unsupported type: chan int"

end json

namespace http

/-- The table behind `http.StatusText`. -/
def statusTexts : List (Int × String) :=
  [ (100, "Continue"), (101, "Switching Protocols"), (102, "Processing"),
    (103, "Early Hints"),
    (200, "OK"), (201, "Created"), (202, "Accepted"),
    (203, "Non-Authoritative Information"), (204, "No Content"),
    (205, "Reset Content"), (206, "Partial Content"), (207, "Multi-Status"),
    (208, "Already Reported"), (226, "IM Used"),
    (300, "Multiple Choices"), (301, "Moved Permanently"), (302, "Found"),
    (303, "See Other"), (304, "Not Modified"), (305, "Use Proxy"),
    (307, "Temporary Redirect"), (308, "Permanent Redirect"),
    (400, "Bad Request"), (401, "Unauthorized"), (402, "Payment Required"),
    (403, "Forbidden"), (404, "Not Found"), (405, "Method Not Allowed"),
    (406, "Not Acceptable"), (407, "Proxy Authentication Required"),
    (408, "Request Timeout"), (409, "Conflict"), (410, "Gone"),
    (411, "Length Required"), (412, "Precondition Failed"),
    (413, "Request Entity Too Large"), (414, "Request URI Too Long"),
    (415, "Unsupported Media Type"), (416, "Requested Range Not Satisfiable"),
    (417, "Expectation Failed"), (418, "I\x27m a teapot"),
    (421, "Misdirected Request"), (422, "Unprocessable Entity"),
    (423, "Locked"), (424, "Failed Dependency"), (425, "Too Early"),
    (426, "Upgrade Required"), (428, "Precondition Required"),
    (429, "Too Many Requests"), (431, "Request Header Fields Too Large"),
    (451, "Unavailable For Legal Reasons"),
    (500, "Internal Server Error"), (501, "Not Implemented"),
    (502, "Bad Gateway"), (503, "Service Unavailable"),
    (504, "Gateway Timeout"), (505, "HTTP Version Not Supported"),
    (506, "Variant Also Negotiates"), (507, "Insufficient Storage"),
    (508, "Loop Detected"), (510, "Not Extended"),
    (511, "Network Authentication Required") ]

/-- `http.StatusText(code)`: the standard text of a status code, the empty
string for a code without one. -/
def StatusText (code : Int) : String :=
  match statusTexts.find? (fun kv => kv.1 = code) with
  | some kv => kv.2
  | none => ""

end http

/-- The Go standard library on the payload universe `GoValue`. -/
def golib : Lib GoValue :=
  { Marshal := json.Marshal, StatusText := http.StatusText }

/-! ## Vocabulary of the statements -/

/-- The writer `Respond` has before it looks at the payload: the content type
is set and `WriteHeader` has been called; `none` when that call panics. -/
def afterHeader (w : ResponseWriter) (statusCode : Int) : Option ResponseWriter :=
  (w.HeaderSet "Content-Type" "application/json").WriteHeader statusCode

/-- The writer a call leaves behind, when it returns. -/
def Outcome.writer : Outcome → Option ResponseWriter
  | Outcome.returned _ w => some w
  | Outcome.panicked => none

/-- The spec's step 1, status code: the error's own code when it is
classifiable, the fallback otherwise. -/
def resolvedStatusCode (e : GoError) (fallbackStatusCode : Int) : Int :=
  match e.asHapi with
  | some h => h.GetStatusCode
  | none => fallbackStatusCode

/-- The spec's step 1, message: the error's own message when it is
classifiable, the configured default message otherwise. -/
def step1Message (cfg : Config) (e : GoError) : String :=
  match e.asHapi with
  | some h => h.GetMessage
  | none => cfg.DefaultErrorMessage

/-- The spec's step 2: an empty message of step 1 is replaced by the standard
text of the resolved status code. -/
def resolvedMessage {α : Type} (cfg : Config) (lib : Lib α) (e : GoError)
    (fallbackStatusCode : Int) : String :=
  if step1Message cfg e = "" then lib.StatusText (resolvedStatusCode e fallbackStatusCode)
  else step1Message cfg e

/-- The status code `RespondErrorFallback` hands to `Respond`, for an error
that may be nil. -/
def statusCodeFor (err : Option GoError) (fallbackStatusCode : Int) : Int :=
  match err with
  | some e => resolvedStatusCode e fallbackStatusCode
  | none => fallbackStatusCode

/-! ## Lemmas on the writer -/

theorem Payload.isNil_eq_true {α : Type} (P : Payload α) :
    P.isNil = true ↔ P = Payload.nil := by
  cases P <;> simp [Payload.isNil]

theorem Payload.isNil_eq_false {α : Type} (P : Payload α) :
    P.isNil = false ↔ P ≠ Payload.nil := by
  cases P <;> simp [Payload.isNil]

/-- A status from 200 on, other than 204 and 304, allows a body. -/
theorem bodyAllowedForStatus_of_final (S : Int) (h1 : 200 ≤ S) (h2 : S ≠ 204) (h3 : S ≠ 304) :
    http.bodyAllowedForStatus S = true := by
  have a : ¬ (100 ≤ S ∧ S ≤ 199) := by omega
  simp [http.bodyAllowedForStatus, a, h2, h3]

/-- On an unwritten status line a code from 200 to 999 is written as it is. -/
theorem WriteHeader_final (w : ResponseWriter) (S : Int) (hfresh : w.wroteHeader = false)
    (h1 : 200 ≤ S) (h2 : S ≤ 999) :
    w.WriteHeader S = some { w with wroteHeader := true, status := S } := by
  have a : ¬ S < 100 := by omega
  have b : ¬ S > 999 := by omega
  have c : ¬ S ≤ 199 := by omega
  simp [ResponseWriter.WriteHeader, http.checkWriteHeaderCode, hfresh, a, b, c]

/-- `WriteHeader` panics exactly on an unwritten status line with a code
outside 100..999. -/
theorem WriteHeader_none_iff (w : ResponseWriter) (S : Int) :
    w.WriteHeader S = none ↔ w.wroteHeader = false ∧ (S < 100 ∨ 999 < S) := by
  unfold ResponseWriter.WriteHeader http.checkWriteHeaderCode
  cases hw : w.wroteHeader
  · by_cases a : S < 100
    · simp [a]
    · by_cases b : S > 999
      · simp [b]
      · have b1 : ¬ 999 < S := b
        simp only [a, b, b1, decide_False, Bool.or_self, Bool.not_false, Bool.not_true,
          if_false, or_self, and_false, iff_false]
        intro h
        split at h
        · exact absurd h (by simp)
        · split at h <;> exact absurd h (by simp)
  · simp

/-- What `WriteHeader` leaves alone. -/
theorem WriteHeader_some_props (w w1 : ResponseWriter) (S : Int)
    (h : w.WriteHeader S = some w1) :
    w1.header = w.header ∧ w1.body = w.body ∧ w1.fault = w.fault := by
  unfold ResponseWriter.WriteHeader at h
  split at h
  · injection h with h
    subst h
    exact ⟨rfl, rfl, rfl⟩
  · split at h
    · exact absurd h (by simp)
    · split at h
      · injection h with h
        subst h
        exact ⟨rfl, rfl, rfl⟩
      · injection h with h
        subst h
        exact ⟨rfl, rfl, rfl⟩

theorem HeaderSet_HeaderGet (w : ResponseWriter) (k v : String) :
    (w.HeaderSet k v).HeaderGet k = some v := by
  simp [ResponseWriter.HeaderSet, ResponseWriter.HeaderGet]

theorem afterHeader_none_iff (w : ResponseWriter) (S : Int) :
    afterHeader w S = none ↔ w.wroteHeader = false ∧ (S < 100 ∨ 999 < S) := by
  unfold afterHeader
  rw [WriteHeader_none_iff]
  simp [ResponseWriter.HeaderSet]

/-- `WriteHeader` returns when the status line is already written or the code
lies in 100..999. -/
theorem afterHeader_returns (w : ResponseWriter) (S : Int)
    (h : w.wroteHeader = true ∨ (100 ≤ S ∧ S ≤ 999)) :
    ∃ w1, afterHeader w S = some w1 := by
  rcases hw : afterHeader w S with _ | w1
  · rw [afterHeader_none_iff] at hw
    rcases h with h | h
    · rw [h] at hw
      exact absurd hw.1 (by simp)
    · omega
  · exact ⟨w1, rfl⟩

theorem afterHeader_some_props (w w1 : ResponseWriter) (S : Int)
    (h : afterHeader w S = some w1) :
    w1.body = w.body ∧ w1.fault = w.fault ∧
      w1.HeaderGet "Content-Type" = some "application/json" := by
  unfold afterHeader at h
  have hp := WriteHeader_some_props _ _ _ h
  refine ⟨hp.2.1, hp.2.2, ?_⟩
  have hg := HeaderSet_HeaderGet w "Content-Type" "application/json"
  unfold ResponseWriter.HeaderGet at hg ⊢
  rw [hp.1]
  exact hg

/-- On an unwritten status line a code from 200 to 999 becomes the status. -/
theorem afterHeader_final (w : ResponseWriter) (S : Int) (hfresh : w.wroteHeader = false)
    (h1 : 200 ≤ S) (h2 : S ≤ 999) :
    ∃ w1, afterHeader w S = some w1 ∧ w1.wroteHeader = true ∧ w1.status = S := by
  refine ⟨_, WriteHeader_final _ S ?_ h1 h2, rfl, rfl⟩
  simp [ResponseWriter.HeaderSet, hfresh]

/-- After the status line, `Write` keeps the status and the headers. -/
theorem Write_keeps (w : ResponseWriter) (b : String) (h : w.wroteHeader = true) :
    (w.Write b).1.status = w.status ∧ (w.Write b).1.header = w.header := by
  unfold ResponseWriter.Write
  simp only [h, if_true]
  split
  · exact ⟨rfl, rfl⟩
  · split
    · exact ⟨rfl, rfl⟩
    · rcases hf : w.fault with _ | ⟨n, msg⟩ <;> exact ⟨rfl, rfl⟩

/-- After a status line that allows a body, on a transport without fault,
`Write` accepts the bytes. -/
theorem Write_ok (w : ResponseWriter) (b : String) (h : w.wroteHeader = true)
    (hb : http.bodyAllowedForStatus w.status = true) (hf : w.fault = none) :
    (w.Write b).2 = none ∧ (w.Write b).1.body = w.body ++ b := by
  unfold ResponseWriter.Write
  simp only [h, if_true]
  by_cases he : b = ""
  · subst he
    simp
  · simp [he, hb, hf]

/-! ## Lemmas on `Respond` -/

/-- A panic of `WriteHeader` is a panic of `Respond`. -/
theorem Respond_panics {α : Type} (cfg : Config) (lib : Lib α) (w : ResponseWriter) (S : Int)
    (P : Payload α) (hw : afterHeader w S = none) :
    Respond cfg lib w S P = Outcome.panicked := by
  unfold afterHeader at hw
  simp [Respond, hw]

/-- The branch of `Respond` that writes no body. -/
theorem Respond_skip {α : Type} (cfg : Config) (lib : Lib α) (w w1 : ResponseWriter) (S : Int)
    (P : Payload α) (hw : afterHeader w S = some w1) (hP : P = Payload.nil)
    (hc : cfg.ReturnNulls = false) :
    Respond cfg lib w S P = Outcome.returned none w1 := by
  subst hP
  unfold afterHeader at hw
  simp [Respond, hw, Payload.isNil, hc]

/-- The branch of `Respond` in which `json.Marshal` fails. -/
theorem Respond_marshal_error {α : Type} (cfg : Config) (lib : Lib α) (w w1 : ResponseWriter)
    (S : Int) (P : Payload α) (e : String) (hw : afterHeader w S = some w1)
    (hser : P ≠ Payload.nil ∨ cfg.ReturnNulls = true)
    (hm : lib.Marshal P = Except.error e) :
    Respond cfg lib w S P =
      Outcome.returned (some (InternalServerError_Wrap e "failed to marshal payload")) w1 := by
  have hcond : (P.isNil && !cfg.ReturnNulls) = false := by
    rcases hser with h | h
    · simp [(Payload.isNil_eq_false P).2 h]
    · simp [h]
  unfold afterHeader at hw
  simp [Respond, hw, hcond, hm]

/-- The branch of `Respond` in which the encoded bytes go to `Write`. -/
theorem Respond_marshal_ok {α : Type} (cfg : Config) (lib : Lib α) (w w1 : ResponseWriter)
    (S : Int) (P : Payload α) (b : String) (hw : afterHeader w S = some w1)
    (hser : P ≠ Payload.nil ∨ cfg.ReturnNulls = true)
    (hm : lib.Marshal P = Except.ok b) :
    Respond cfg lib w S P =
      Outcome.returned
        ((w1.Write b).2.map (fun err => InternalServerError_Wrap err "failed to write bytes"))
        (w1.Write b).1 := by
  have hcond : (P.isNil && !cfg.ReturnNulls) = false := by
    rcases hser with h | h
    · simp [(Payload.isNil_eq_false P).2 h]
    · simp [h]
  unfold afterHeader at hw
  simp only [Respond, hw, hcond, hm]
  change (match w1.Write b with
    | (w, some err) =>
      Outcome.returned (some (InternalServerError_Wrap err "failed to write bytes")) w
    | (w, none) => Outcome.returned none w) = _
  rcases hwr : w1.Write b with ⟨w2, _ | err⟩ <;> simp

/-- Either a payload is skipped (nil with `ReturnNulls` off) or it is serialized. -/
theorem skip_or_serialized {α : Type} (cfg : Config) (P : Payload α) :
    (P = Payload.nil ∧ cfg.ReturnNulls = false) ∨ (P ≠ Payload.nil ∨ cfg.ReturnNulls = true) := by
  by_cases hP : P = Payload.nil
  · cases hc : cfg.ReturnNulls
    · exact Or.inl ⟨hP, rfl⟩
    · exact Or.inr (Or.inr rfl)
  · exact Or.inr (Or.inl hP)

/-- `Respond` reads the configuration through `ReturnNulls` only. -/
theorem Respond_congr_cfg {α : Type} (cfg cfg1 : Config) (lib : Lib α) (w : ResponseWriter)
    (S : Int) (P : Payload α) (h : cfg1.ReturnNulls = cfg.ReturnNulls) :
    Respond cfg1 lib w S P = Respond cfg lib w S P := by
  unfold Respond
  rw [h]

/-- When `WriteHeader` returns, `Respond` returns, with the content type set. -/
theorem Respond_returns {α : Type} (cfg : Config) (lib : Lib α) (w w1 : ResponseWriter)
    (S : Int) (P : Payload α) (hw : afterHeader w S = some w1) :
    ∃ r w2, Respond cfg lib w S P = Outcome.returned r w2 := by
  rcases skip_or_serialized cfg P with ⟨hP, hc⟩ | hser
  · exact ⟨_, _, Respond_skip cfg lib w w1 S P hw hP hc⟩
  · rcases hm : lib.Marshal P with e | b
    · exact ⟨_, _, Respond_marshal_error cfg lib w w1 S P e hw hser hm⟩
    · exact ⟨_, _, Respond_marshal_ok cfg lib w w1 S P b hw hser hm⟩

/-- On a writer whose status line is not yet written, `Respond` with a code
from 200 to 999 returns with that status recorded and the content type set to
JSON, whatever branch it takes. -/
theorem Respond_status {α : Type} (cfg : Config) (lib : Lib α) (w : ResponseWriter) (S : Int)
    (P : Payload α) (hfresh : w.wroteHeader = false) (h1 : 200 ≤ S) (h2 : S ≤ 999) :
    ∃ r w2, Respond cfg lib w S P = Outcome.returned r w2 ∧ w2.status = S ∧
      w2.HeaderGet "Content-Type" = some "application/json" := by
  obtain ⟨w1, hw, hwrote, hst⟩ := afterHeader_final w S hfresh h1 h2
  have hp := afterHeader_some_props w w1 S hw
  rcases skip_or_serialized cfg P with ⟨hP, hc⟩ | hser
  · exact ⟨_, _, Respond_skip cfg lib w w1 S P hw hP hc, hst, hp.2.2⟩
  · rcases hm : lib.Marshal P with e | b
    · exact ⟨_, _, Respond_marshal_error cfg lib w w1 S P e hw hser hm, hst, hp.2.2⟩
    · refine ⟨_, _, Respond_marshal_ok cfg lib w w1 S P b hw hser hm, ?_, ?_⟩
      · rw [(Write_keeps w1 b hwrote).1, hst]
      · have hk := (Write_keeps w1 b hwrote).2
        have hg := hp.2.2
        unfold ResponseWriter.HeaderGet at hg ⊢
        rw [hk]
        exact hg

/-- A serialized payload under a status that allows a body, on a transport
that accepts the bytes: the call returns nil and the body grows by the
encoding. -/
theorem Respond_body_ok {α : Type} (cfg : Config) (lib : Lib α) (w : ResponseWriter)
    (S : Int) (P : Payload α) (b : String) (hfresh : w.wroteHeader = false)
    (h1 : 200 ≤ S) (h2 : S ≤ 999) (h3 : S ≠ 204) (h4 : S ≠ 304)
    (hser : P ≠ Payload.nil ∨ cfg.ReturnNulls = true)
    (hm : lib.Marshal P = Except.ok b) (hf : w.fault = none) :
    ∃ w2, Respond cfg lib w S P = Outcome.returned none w2 ∧ w2.status = S ∧
      w2.body = w.body ++ b := by
  obtain ⟨w1, hw, hwrote, hst⟩ := afterHeader_final w S hfresh h1 h2
  have hp := afterHeader_some_props w w1 S hw
  have hb : http.bodyAllowedForStatus w1.status = true := by
    rw [hst]
    exact bodyAllowedForStatus_of_final S h1 h3 h4
  have hf1 : w1.fault = none := by rw [hp.2.1, hf]
  have hwr := Write_ok w1 b hwrote hb hf1
  refine ⟨(w1.Write b).1, ?_, ?_, ?_⟩
  · rw [Respond_marshal_ok cfg lib w w1 S P b hw hser hm, hwr.1]
    rfl
  · rw [(Write_keeps w1 b hwrote).1, hst]
  · rw [hwr.2, hp.1]

/-- On a non-nil error, `RespondErrorFallback` is one call of `Respond`, with
the resolved status code and the `ErrorResponse` of steps 1 to 3. -/
theorem RespondErrorFallback_some {α : Type} (cfg : Config) (lib : Lib α)
    (w : ResponseWriter) (e : GoError) (F : Int) :
    RespondErrorFallback cfg lib w (some e) F =
      Respond cfg lib w (resolvedStatusCode e F)
        (Payload.errorResponse
          { Message := resolvedMessage cfg lib e F,
            RawError := if cfg.ReturnRawError then e.Error else "" }) := by
  unfold RespondErrorFallback resolvedMessage resolvedStatusCode step1Message NewErrorResponse
  rcases e with ⟨txt, _ | h⟩ <;> cases hr : cfg.ReturnRawError <;> simp

/-- On a nil error with raw-error echoing off, `RespondErrorFallback` is one
call of `Respond` with the fallback status code. -/
theorem RespondErrorFallback_nil {α : Type} (cfg : Config) (lib : Lib α)
    (w : ResponseWriter) (F : Int) (hr : cfg.ReturnRawError = false) :
    RespondErrorFallback cfg lib w none F =
      Respond cfg lib w F
        (Payload.errorResponse
          { Message := if cfg.DefaultErrorMessage = "" then lib.StatusText F
              else cfg.DefaultErrorMessage,
            RawError := "" }) := by
  unfold RespondErrorFallback NewErrorResponse
  simp [hr]

/-- The status `Respond` records, read off the outcome. -/
theorem Respond_status_writer {α : Type} (cfg : Config) (lib : Lib α) (w : ResponseWriter)
    (S : Int) (P : Payload α) (hfresh : w.wroteHeader = false) (h1 : 200 ≤ S) (h2 : S ≤ 999) :
    (Respond cfg lib w S P).writer.map ResponseWriter.status = some S := by
  obtain ⟨r, w2, heq, hst, _⟩ := Respond_status cfg lib w S P hfresh h1 h2
  rw [heq]
  simp [Outcome.writer, hst]

/-- The body `Respond` leaves, read off the outcome. -/
theorem Respond_body_writer {α : Type} (cfg : Config) (lib : Lib α) (w : ResponseWriter)
    (S : Int) (P : Payload α) (b : String) (hfresh : w.wroteHeader = false)
    (h1 : 200 ≤ S) (h2 : S ≤ 999) (h3 : S ≠ 204) (h4 : S ≠ 304)
    (hser : P ≠ Payload.nil ∨ cfg.ReturnNulls = true)
    (hm : lib.Marshal P = Except.ok b) (hf : w.fault = none) :
    (Respond cfg lib w S P).writer.map ResponseWriter.body = some (w.body ++ b) := by
  obtain ⟨w2, heq, _, hbody⟩ := Respond_body_ok cfg lib w S P b hfresh h1 h2 h3 h4 hser hm hf
  rw [heq]
  simp [Outcome.writer, hbody]

/-- `RespondErrorFallback` hands `Respond` the status code `statusCodeFor`,
whenever it reaches `Respond`. -/
theorem RespondErrorFallback_calls_Respond {α : Type} (cfg : Config) (lib : Lib α)
    (w : ResponseWriter) (err : Option GoError) (F : Int)
    (h : err ≠ none ∨ cfg.ReturnRawError = false) :
    ∃ r : ErrorResponse, RespondErrorFallback cfg lib w err F =
      Respond cfg lib w (statusCodeFor err F) (Payload.errorResponse r) := by
  rcases err with _ | e
  · rcases h with h | h
    · exact absurd rfl h
    · exact ⟨_, RespondErrorFallback_nil cfg lib w F h⟩
  · exact ⟨_, RespondErrorFallback_some cfg lib w e F⟩

/-! ## `Respond` -/

/-- C1, as stated, fails: at the status code 0 `Respond` panics in
`WriteHeader` and records nothing, and at the status code 204 a string payload
is not written: `Write` refuses the body and the call returns the wrapped
write error. -/
theorem Respond_any_status_counterexample :
    Respond ⟨true, 500, "", false⟩ golib (ResponseWriter.fresh none) 0
        (Payload.value (GoValue.str "hi")) = Outcome.panicked ∧
    Respond ⟨true, 500, "", false⟩ golib (ResponseWriter.fresh none) 204
        (Payload.value (GoValue.str "hi")) =
      Outcome.returned
        (some (InternalServerError_Wrap
          "http: request method or response status code does not allow body"
          "failed to write bytes"))
        ⟨[("Content-Type", "application/json")], true, 204, "", none, true⟩ := by
  decide

/-- C1, amended. On a writer whose status line is not yet written, for a
status code `S` from 200 to 999, `Respond(w, S, P)` returns, records exactly
the status `S` and sets the content type to JSON.  When `P` is nil and
`ReturnNulls` is false it writes no body bytes and returns nil.  Otherwise,
when `b` is the JSON encoding of `P`, `S` is neither 204 nor 304 and the
transport accepts the bytes, the body grows by exactly `b` and the call
returns nil. -/
theorem Respond_writes_status_and_json {α : Type} (cfg : Config) (lib : Lib α)
    (w : ResponseWriter) (S : Int) (P : Payload α) (hfresh : w.wroteHeader = false)
    (h1 : 200 ≤ S) (h2 : S ≤ 999) :
    ∃ r w2, Respond cfg lib w S P = Outcome.returned r w2 ∧
      w2.status = S ∧
      w2.HeaderGet "Content-Type" = some "application/json" ∧
      (P = Payload.nil ∧ cfg.ReturnNulls = false → r = none ∧ w2.body = w.body) ∧
      (¬ (P = Payload.nil ∧ cfg.ReturnNulls = false) →
        ∀ b, lib.Marshal P = Except.ok b → S ≠ 204 → S ≠ 304 → w.fault = none →
          r = none ∧ w2.body = w.body ++ b) := by
  obtain ⟨r, w2, heq, hst, hct⟩ := Respond_status cfg lib w S P hfresh h1 h2
  refine ⟨r, w2, heq, hst, hct, ?_, ?_⟩
  · rintro ⟨hP, hc⟩
    obtain ⟨w1, hw, _, _⟩ := afterHeader_final w S hfresh h1 h2
    have hs := Respond_skip cfg lib w w1 S P hw hP hc
    rw [heq] at hs
    injection hs with hr hw2
    refine ⟨hr, ?_⟩
    rw [hw2]
    exact (afterHeader_some_props w w1 S hw).1
  · intro hns b hm h3 h4 hf
    have hser : P ≠ Payload.nil ∨ cfg.ReturnNulls = true := by
      rcases skip_or_serialized cfg P with h | h
      · exact absurd h hns
      · exact h
    obtain ⟨w3, hb, _, hbody⟩ := Respond_body_ok cfg lib w S P b hfresh h1 h2 h3 h4 hser hm hf
    rw [heq] at hb
    injection hb with hr hw2
    refine ⟨hr, ?_⟩
    rw [hw2]
    exact hbody

/-- C1, amended, at concrete inputs: a string payload under status 201, and a
nil payload with `ReturnNulls` off under status 204. -/
theorem Respond_writes_status_and_json_witness :
    (∃ r w2, Respond ⟨false, 500, "", false⟩ golib (ResponseWriter.fresh none) 201
        (Payload.value (GoValue.str "hi")) = Outcome.returned r w2 ∧
      w2.status = 201 ∧ r = none ∧ w2.body = "" ++ "\"hi\"") ∧
    (∃ r w2, Respond ⟨false, 500, "", false⟩ golib (ResponseWriter.fresh none) 204
        (Payload.nil : Payload GoValue) = Outcome.returned r w2 ∧
      w2.status = 204 ∧ r = none ∧ w2.body = "") := by
  constructor
  · obtain ⟨r, w2, heq, hst, _, _, hbody⟩ :=
      Respond_writes_status_and_json ⟨false, 500, "", false⟩ golib (ResponseWriter.fresh none)
        201 (Payload.value (GoValue.str "hi")) rfl (by decide) (by decide)
    exact ⟨r, w2, heq, hst,
      hbody (by decide) "\"hi\"" rfl (by decide) (by decide) rfl⟩
  · obtain ⟨r, w2, heq, hst, _, hskip, _⟩ :=
      Respond_writes_status_and_json ⟨false, 500, "", false⟩ golib (ResponseWriter.fresh none)
        204 (Payload.nil : Payload GoValue) rfl (by decide) (by decide)
    exact ⟨r, w2, heq, hst, hskip ⟨rfl, rfl⟩⟩

/-- C6, as stated, fails: at the status code 0 a channel payload, which
`json.Marshal` rejects, does not come back as an error: `Respond` panics in
`WriteHeader` before it marshals. -/
theorem Respond_error_iff_counterexample :
    Respond ⟨true, 500, "", false⟩ golib (ResponseWriter.fresh none) 0
        (Payload.value GoValue.chan) = Outcome.panicked ∧
    golib.Marshal (Payload.value GoValue.chan) =
      Except.error "json: unsupported type: chan int" :=
  ⟨by decide, rfl⟩

/-- C6, amended. For a status code from 100 to 999 `Respond` returns, and it
returns a non-nil error exactly when the payload is serialized (it is non-nil
or `ReturnNulls` is on) and either `json.Marshal` fails or the writer's `Write`
of the encoded bytes fails.  A marshaling failure comes back wrapped as
"failed to marshal payload" with no body bytes written, a write failure
wrapped as "failed to write bytes".  Here `w1` is the writer `Write` is called
on, the one `WriteHeader` leaves. -/
theorem Respond_error_iff {α : Type} (cfg : Config) (lib : Lib α) (w : ResponseWriter)
    (S : Int) (P : Payload α) (h1 : 100 ≤ S) (h2 : S ≤ 999) :
    ∃ w1 r w2, afterHeader w S = some w1 ∧ Respond cfg lib w S P = Outcome.returned r w2 ∧
      (r ≠ none ↔
        (P ≠ Payload.nil ∨ cfg.ReturnNulls = true) ∧
        ((∃ e, lib.Marshal P = Except.error e) ∨
          (∃ b, lib.Marshal P = Except.ok b ∧ (w1.Write b).2 ≠ none))) ∧
      (∀ e, (P ≠ Payload.nil ∨ cfg.ReturnNulls = true) → lib.Marshal P = Except.error e →
        r = some (InternalServerError_Wrap e "failed to marshal payload") ∧
        w2.body = w.body) ∧
      (∀ b e, (P ≠ Payload.nil ∨ cfg.ReturnNulls = true) → lib.Marshal P = Except.ok b →
        (w1.Write b).2 = some e →
        r = some (InternalServerError_Wrap e "failed to write bytes")) := by
  obtain ⟨w1, hw⟩ := afterHeader_returns w S (Or.inr ⟨h1, h2⟩)
  have hp := afterHeader_some_props w w1 S hw
  rcases skip_or_serialized cfg P with ⟨hP, hc⟩ | hser
  · refine ⟨w1, none, w1, hw, Respond_skip cfg lib w w1 S P hw hP hc, ?_, ?_, ?_⟩
    · constructor
      · intro h
        exact absurd rfl h
      · rintro ⟨h | h, _⟩
        · exact absurd hP h
        · rw [hc] at h
          exact absurd h (by decide)
    · rintro e (h | h) _
      · exact absurd hP h
      · rw [hc] at h
        exact absurd h (by decide)
    · rintro b e (h | h) _ _
      · exact absurd hP h
      · rw [hc] at h
        exact absurd h (by decide)
  · rcases hm : lib.Marshal P with e | b
    · refine ⟨w1, _, w1, hw, Respond_marshal_error cfg lib w w1 S P e hw hser hm, ?_, ?_, ?_⟩
      · constructor
        · intro _
          exact ⟨hser, Or.inl ⟨e, rfl⟩⟩
        · intro _
          simp
      · intro e1 _ he1
        injection he1 with he1
        subst he1
        exact ⟨rfl, hp.1⟩
      · intro b e1 _ hb _
        exact absurd hb (by simp)
    · refine ⟨w1, _, _, hw, Respond_marshal_ok cfg lib w w1 S P b hw hser hm, ?_, ?_, ?_⟩
      · constructor
        · intro h
          refine ⟨hser, Or.inr ⟨b, rfl, ?_⟩⟩
          intro h0
          apply h
          simp [h0]
        · rintro ⟨_, ⟨e, he⟩ | ⟨b1, hb1, hwr⟩⟩
          · exact absurd he (by simp)
          · have hbb : b = b1 := by
              injection hb1
            subst hbb
            rcases hwe : (w1.Write b).2 with _ | err
            · exact absurd hwe hwr
            · simp
      · intro e1 _ he1
        exact absurd he1 (by simp)
      · intro b1 e1 _ hb1 hwr
        have hbb : b = b1 := by
          injection hb1
        subst hbb
        simp [hwr]

/-- C6, amended, at concrete inputs: under status 200 a channel payload fails
to marshal, and a string payload meets a transport that fails after two
bytes. -/
theorem Respond_error_iff_witness :
    (∃ r w2, Respond ⟨false, 500, "", false⟩ golib (ResponseWriter.fresh none) 200
        (Payload.value GoValue.chan) = Outcome.returned r w2 ∧
      r = some (InternalServerError_Wrap "json: unsupported type: chan int"
          "failed to marshal payload") ∧
      w2.body = "") ∧
    (∃ r w2, Respond ⟨false, 500, "", false⟩ golib
        (ResponseWriter.fresh (some (2, "broken pipe"))) 200
        (Payload.value (GoValue.str "hi")) = Outcome.returned r w2 ∧
      r ≠ none) := by
  constructor
  · obtain ⟨w1, r, w2, _, heq, _, hme, _⟩ :=
      Respond_error_iff ⟨false, 500, "", false⟩ golib (ResponseWriter.fresh none) 200
        (Payload.value GoValue.chan) (by decide) (by decide)
    exact ⟨r, w2, heq, hme "json: unsupported type: chan int" (Or.inl (by decide)) rfl⟩
  · obtain ⟨w1, r, w2, hw, heq, hiff, _, _⟩ :=
      Respond_error_iff ⟨false, 500, "", false⟩ golib
        (ResponseWriter.fresh (some (2, "broken pipe"))) 200
        (Payload.value (GoValue.str "hi")) (by decide) (by decide)
    refine ⟨r, w2, heq, hiff.2 ⟨Or.inl (by decide), Or.inr ⟨"\"hi\"", rfl, ?_⟩⟩⟩
    have hw1 : w1 = ⟨[("Content-Type", "application/json")], true, 200, "",
        some (2, "broken pipe"), true⟩ := by
      have h0 : afterHeader (ResponseWriter.fresh (some (2, "broken pipe"))) 200 =
          some ⟨[("Content-Type", "application/json")], true, 200, "",
            some (2, "broken pipe"), true⟩ := by decide
      rw [h0] at hw
      injection hw with hw
      exact hw.symm
    subst hw1
    decide

/-- C9. Each convenience wrapper is `Respond` at its documented status code:
200, 400, 401, 403, 404, 413, 418 and 500. -/
theorem wrappers_eq_Respond {α : Type} (cfg : Config) (lib : Lib α) (w : ResponseWriter)
    (P : Payload α) :
    RespondOK cfg lib w P = Respond cfg lib w 200 P ∧
    RespondBadRequest cfg lib w P = Respond cfg lib w 400 P ∧
    RespondUnauthorized cfg lib w P = Respond cfg lib w 401 P ∧
    RespondForbidden cfg lib w P = Respond cfg lib w 403 P ∧
    RespondNotFound cfg lib w P = Respond cfg lib w 404 P ∧
    RespondTooLarge cfg lib w P = Respond cfg lib w 413 P ∧
    RespondTeapot cfg lib w P = Respond cfg lib w 418 P ∧
    RespondInternalError cfg lib w P = Respond cfg lib w 500 P :=
  ⟨rfl, rfl, rfl, rfl, rfl, rfl, rfl, rfl⟩

/-- C5, as stated, fails: with `ReturnNulls` on, `RespondNotFound(w, nil)`
writes the JSON encoding of nil, the body `null`, not an object with an empty
message. -/
theorem RespondNotFound_nil_counterexample :
    (RespondNotFound ⟨true, 500, "", false⟩ golib (ResponseWriter.fresh none)
        Payload.nil).writer.map ResponseWriter.status = some 404 ∧
    (RespondNotFound ⟨true, 500, "", false⟩ golib (ResponseWriter.fresh none)
        Payload.nil).writer.map ResponseWriter.body = some "null" ∧
    (RespondNotFound ⟨true, 500, "", false⟩ golib (ResponseWriter.fresh none)
        Payload.nil).writer.map ResponseWriter.body ≠ some "\x7b\"message\":\"\"\x7d" := by
  decide

/-- C5, amended. On a writer whose status line is not yet written,
`RespondNotFound(w, nil)` returns and records status 404; with `ReturnNulls`
on, and a transport that accepts the bytes, the body written is exactly
`null`, the JSON encoding of nil; with `ReturnNulls` off no body is written
and the status is still 404. -/
theorem RespondNotFound_nil (cfg : Config) (w : ResponseWriter)
    (hfresh : w.wroteHeader = false) :
    (RespondNotFound cfg golib w Payload.nil).writer.map ResponseWriter.status = some 404 ∧
    (cfg.ReturnNulls = true → w.fault = none →
      (RespondNotFound cfg golib w Payload.nil).writer.map ResponseWriter.body =
        some (w.body ++ "null")) ∧
    (cfg.ReturnNulls = false →
      (RespondNotFound cfg golib w Payload.nil).writer.map ResponseWriter.body =
        some w.body) := by
  refine ⟨?_, ?_, ?_⟩
  · obtain ⟨r, w2, heq, hst, _⟩ :=
      Respond_status cfg golib w 404 Payload.nil hfresh (by decide) (by decide)
    show (Respond cfg golib w 404 Payload.nil).writer.map ResponseWriter.status = some 404
    rw [heq]
    simp [Outcome.writer, hst]
  · intro hc hf
    have hm : golib.Marshal Payload.nil = Except.ok "null" := rfl
    obtain ⟨w2, heq, _, hbody⟩ :=
      Respond_body_ok cfg golib w 404 Payload.nil "null" hfresh (by decide) (by decide)
        (by decide) (by decide) (Or.inr hc) hm hf
    show (Respond cfg golib w 404 Payload.nil).writer.map ResponseWriter.body = _
    rw [heq]
    simp [Outcome.writer, hbody]
  · intro hc
    obtain ⟨w1, hw, _, _⟩ := afterHeader_final w 404 hfresh (by decide) (by decide)
    show (Respond cfg golib w 404 Payload.nil).writer.map ResponseWriter.body = _
    rw [Respond_skip cfg golib w w1 404 Payload.nil hw rfl hc]
    simp [Outcome.writer, (afterHeader_some_props w w1 404 hw).1]

/-- C5, amended, at concrete inputs: a fresh writer with `ReturnNulls` on, and
one with `ReturnNulls` off. -/
theorem RespondNotFound_nil_witness :
    ((RespondNotFound ⟨true, 500, "", false⟩ golib (ResponseWriter.fresh none)
        Payload.nil).writer.map ResponseWriter.status = some 404 ∧
      (RespondNotFound ⟨true, 500, "", false⟩ golib (ResponseWriter.fresh none)
        Payload.nil).writer.map ResponseWriter.body = some ("" ++ "null")) ∧
    (RespondNotFound ⟨false, 500, "", false⟩ golib (ResponseWriter.fresh none)
        Payload.nil).writer.map ResponseWriter.body = some "" :=
  ⟨⟨(RespondNotFound_nil ⟨true, 500, "", false⟩ (ResponseWriter.fresh none) rfl).1,
      (RespondNotFound_nil ⟨true, 500, "", false⟩ (ResponseWriter.fresh none) rfl).2.1 rfl rfl⟩,
    (RespondNotFound_nil ⟨false, 500, "", false⟩ (ResponseWriter.fresh none) rfl).2.2 rfl⟩

/-! ## `RespondErrorFallback` and `RespondError` -/

/-- C2, as stated, fails: a classifiable error with status 404 and an empty
message is answered with the message `Not Found`, the status text, not with
its own (empty) message; and a classifiable error with status 0 is not
answered at all, the call panics in `WriteHeader`. -/
theorem RespondErrorFallback_classifiable_counterexample :
    RespondErrorFallback ⟨true, 500, "", false⟩ golib (ResponseWriter.fresh none)
        (some ⟨"boom", some ⟨404, ""⟩⟩) 500 =
      Outcome.returned none
        ⟨[("Content-Type", "application/json")], true, 404,
          "\x7b\"message\":\"Not Found\"\x7d", none, true⟩ ∧
    RespondErrorFallback ⟨true, 500, "", false⟩ golib (ResponseWriter.fresh none)
        (some ⟨"boom", some ⟨404, ""⟩⟩) 500 ≠
      Respond ⟨true, 500, "", false⟩ golib (ResponseWriter.fresh none) 404
        (Payload.errorResponse ⟨"", ""⟩) ∧
    RespondErrorFallback ⟨true, 500, "", false⟩ golib (ResponseWriter.fresh none)
        (some ⟨"boom", some ⟨0, "gone"⟩⟩) 500 = Outcome.panicked := by
  decide

/-- C2, amended. For an error `e` that is a `hapiError` `h`,
`RespondErrorFallback` is `Respond` with status `h.GetStatusCode` and an
`ErrorResponse` whose message is `h.GetMessage` when that is not empty, and
the status text of `h.GetStatusCode` when it is; on a writer whose status line
is not yet written a status from 200 to 999 is recorded; and the outcome is
the same under every fallback status code and every `DefaultErrorMessage`. -/
theorem RespondErrorFallback_classifiable {α : Type} (cfg : Config) (lib : Lib α)
    (w : ResponseWriter) (e : GoError) (h : hapiError) (F : Int) (hh : e.asHapi = some h) :
    RespondErrorFallback cfg lib w (some e) F =
      Respond cfg lib w h.GetStatusCode
        (Payload.errorResponse
          { Message := if h.GetMessage = "" then lib.StatusText h.GetStatusCode
              else h.GetMessage,
            RawError := if cfg.ReturnRawError then e.Error else "" }) ∧
    (w.wroteHeader = false → 200 ≤ h.GetStatusCode → h.GetStatusCode ≤ 999 →
      (RespondErrorFallback cfg lib w (some e) F).writer.map ResponseWriter.status =
        some h.GetStatusCode) ∧
    (∀ (F1 : Int) (msg1 : String),
      RespondErrorFallback { cfg with DefaultErrorMessage := msg1 } lib w (some e) F1 =
        RespondErrorFallback cfg lib w (some e) F) := by
  have key : ∀ (c : Config) (G : Int), c.ReturnRawError = cfg.ReturnRawError →
      c.ReturnNulls = cfg.ReturnNulls →
      RespondErrorFallback c lib w (some e) G =
        Respond cfg lib w h.GetStatusCode
          (Payload.errorResponse
            { Message := if h.GetMessage = "" then lib.StatusText h.GetStatusCode
                else h.GetMessage,
              RawError := if cfg.ReturnRawError then e.Error else "" }) := by
    intro c G hr hn
    rw [RespondErrorFallback_some, Respond_congr_cfg cfg c lib w _ _ hn]
    simp [resolvedStatusCode, resolvedMessage, step1Message, hh, hr]
  refine ⟨key cfg F rfl rfl, ?_, ?_⟩
  · intro hfresh h1 h2
    rw [key cfg F rfl rfl]
    exact Respond_status_writer cfg lib w _ _ hfresh h1 h2
  · intro F1 msg1
    rw [key cfg F rfl rfl]
    exact key _ F1 rfl rfl

/-- C2, amended, at a concrete input: a classifiable error with status 409 and
the message `taken`, the fallback being 500. -/
theorem RespondErrorFallback_classifiable_witness :
    (RespondErrorFallback ⟨true, 500, "oops", false⟩ golib (ResponseWriter.fresh none)
        (some ⟨"boom", some ⟨409, "taken"⟩⟩) 500).writer.map ResponseWriter.status =
      some (hapiError.mk 409 "taken").GetStatusCode ∧
    RespondErrorFallback ⟨true, 500, "oops", false⟩ golib (ResponseWriter.fresh none)
        (some ⟨"boom", some ⟨409, "taken"⟩⟩) 500 =
      Respond ⟨true, 500, "oops", false⟩ golib (ResponseWriter.fresh none)
        (hapiError.mk 409 "taken").GetStatusCode
        (Payload.errorResponse
          { Message := if (hapiError.mk 409 "taken").GetMessage = ""
              then golib.StatusText (hapiError.mk 409 "taken").GetStatusCode
              else (hapiError.mk 409 "taken").GetMessage,
            RawError := if (Config.mk true 500 "oops" false).ReturnRawError
              then (GoError.mk "boom" (some ⟨409, "taken"⟩)).Error else "" }) :=
  ⟨(RespondErrorFallback_classifiable ⟨true, 500, "oops", false⟩ golib
      (ResponseWriter.fresh none) ⟨"boom", some ⟨409, "taken"⟩⟩ ⟨409, "taken"⟩ 500 rfl).2.1
      rfl (by decide) (by decide),
    (RespondErrorFallback_classifiable ⟨true, 500, "oops", false⟩ golib
      (ResponseWriter.fresh none) ⟨"boom", some ⟨409, "taken"⟩⟩ ⟨409, "taken"⟩ 500 rfl).1⟩

/-- C3, as stated, fails: with the fallback status code 0 a plain error is
not answered with status 0, the call panics in `WriteHeader`. -/
theorem RespondErrorFallback_plain_counterexample :
    RespondErrorFallback ⟨true, 500, "", false⟩ golib (ResponseWriter.fresh none)
        (some ⟨"boom", none⟩) 0 = Outcome.panicked := by
  decide

/-- C3, amended. For an error `e` that is not a `hapiError`,
`RespondErrorFallback` is `Respond` with the fallback status `F` and an
`ErrorResponse` whose message is `DefaultErrorMessage` when that is not empty
and the status text of `F` when it is; on a writer whose status line is not
yet written a fallback from 200 to 999 is recorded as the status. -/
theorem RespondErrorFallback_plain {α : Type} (cfg : Config) (lib : Lib α)
    (w : ResponseWriter) (e : GoError) (F : Int) (hp : e.asHapi = none) :
    RespondErrorFallback cfg lib w (some e) F =
      Respond cfg lib w F
        (Payload.errorResponse
          { Message := if cfg.DefaultErrorMessage = "" then lib.StatusText F
              else cfg.DefaultErrorMessage,
            RawError := if cfg.ReturnRawError then e.Error else "" }) ∧
    (w.wroteHeader = false → 200 ≤ F → F ≤ 999 →
      (RespondErrorFallback cfg lib w (some e) F).writer.map ResponseWriter.status =
        some F) := by
  have key : RespondErrorFallback cfg lib w (some e) F =
      Respond cfg lib w F
        (Payload.errorResponse
          { Message := if cfg.DefaultErrorMessage = "" then lib.StatusText F
              else cfg.DefaultErrorMessage,
            RawError := if cfg.ReturnRawError then e.Error else "" }) := by
    rw [RespondErrorFallback_some]
    simp [resolvedStatusCode, resolvedMessage, step1Message, hp]
  refine ⟨key, ?_⟩
  intro hfresh h1 h2
  rw [key]
  exact Respond_status_writer cfg lib w _ _ hfresh h1 h2

/-- C3, amended, at a concrete input: a plain error, the fallback 503 and an
empty `DefaultErrorMessage`. -/
theorem RespondErrorFallback_plain_witness :
    (RespondErrorFallback ⟨true, 500, "", false⟩ golib (ResponseWriter.fresh none)
        (some ⟨"boom", none⟩) 503).writer.map ResponseWriter.status = some 503 :=
  (RespondErrorFallback_plain ⟨true, 500, "", false⟩ golib (ResponseWriter.fresh none)
    ⟨"boom", none⟩ 503 rfl).2 rfl (by decide) (by decide)

/-- C4, as stated, fails: with `ReturnRawError` on, the plain error `boom`
under the fallback status code 0 gets no response at all (the call panics in
`WriteHeader`), and an error whose text is empty gets a response body without
the key `rawError`. -/
theorem RespondErrorFallback_rawError_counterexample :
    RespondErrorFallback ⟨true, 500, "", true⟩ golib (ResponseWriter.fresh none)
        (some ⟨"boom", none⟩) 0 = Outcome.panicked ∧
    (RespondErrorFallback ⟨true, 500, "", true⟩ golib (ResponseWriter.fresh none)
        (some ⟨"", none⟩) 500).writer.map ResponseWriter.body =
      some "\x7b\"message\":\"Internal Server Error\"\x7d" := by
  decide

/-- C4, amended. With `ReturnRawError` on, the `ErrorResponse` handed to
`Respond` has `RawError` equal to `e.Error`; with it off, `RawError` is left
empty.  When the body is written (the status line is not yet written, the
resolved status code lies in 200..999 and is neither 204 nor 304, the
transport accepts the bytes), under the JSON encoding of `ErrorResponse`: with
`ReturnRawError` on, a non-empty text of the error stands under the key
`rawError` and an empty text leaves the key out; with `ReturnRawError` off the
body has the key `message` alone. -/
theorem RespondErrorFallback_rawError {α : Type} (cfg : Config) (lib : Lib α)
    (w : ResponseWriter) (e : GoError) (F : Int) :
    (cfg.ReturnRawError = true →
      RespondErrorFallback cfg lib w (some e) F =
        Respond cfg lib w (resolvedStatusCode e F)
          (Payload.errorResponse
            { Message := resolvedMessage cfg lib e F, RawError := e.Error })) ∧
    (cfg.ReturnRawError = false →
      RespondErrorFallback cfg lib w (some e) F =
        Respond cfg lib w (resolvedStatusCode e F)
          (Payload.errorResponse
            { Message := resolvedMessage cfg lib e F, RawError := "" })) ∧
    (w.wroteHeader = false → 200 ≤ resolvedStatusCode e F → resolvedStatusCode e F ≤ 999 →
      resolvedStatusCode e F ≠ 204 → resolvedStatusCode e F ≠ 304 → w.fault = none →
      (cfg.ReturnRawError = true → e.Error ≠ "" →
        (RespondErrorFallback cfg golib w (some e) F).writer.map ResponseWriter.body =
          some (w.body ++ ("\x7b\"message\":" ++
            json.quote (resolvedMessage cfg golib e F) ++
            (",\"rawError\":" ++ json.quote e.Error) ++ "\x7d"))) ∧
      (cfg.ReturnRawError = true → e.Error = "" →
        (RespondErrorFallback cfg golib w (some e) F).writer.map ResponseWriter.body =
          some (w.body ++ ("\x7b\"message\":" ++
            json.quote (resolvedMessage cfg golib e F) ++ "" ++ "\x7d"))) ∧
      (cfg.ReturnRawError = false →
        (RespondErrorFallback cfg golib w (some e) F).writer.map ResponseWriter.body =
          some (w.body ++ ("\x7b\"message\":" ++
            json.quote (resolvedMessage cfg golib e F) ++ "" ++ "\x7d")))) := by
  refine ⟨?_, ?_, ?_⟩
  · intro hr
    rw [RespondErrorFallback_some]
    simp [hr]
  · intro hr
    rw [RespondErrorFallback_some]
    simp [hr]
  · intro hfresh h1 h2 h3 h4 hf
    refine ⟨?_, ?_, ?_⟩
    · intro hr he
      rw [RespondErrorFallback_some]
      have hm : golib.Marshal (Payload.errorResponse
          { Message := resolvedMessage cfg golib e F,
            RawError := if cfg.ReturnRawError then e.Error else "" }) =
          Except.ok ("\x7b\"message\":" ++ json.quote (resolvedMessage cfg golib e F) ++
            (",\"rawError\":" ++ json.quote e.Error) ++ "\x7d") := by
        simp [golib, json.Marshal, json.marshalErrorResponse, hr, he]
      exact Respond_body_writer cfg golib w _ _ _ hfresh h1 h2 h3 h4 (Or.inl (by simp)) hm hf
    · intro hr he
      rw [RespondErrorFallback_some]
      have hm : golib.Marshal (Payload.errorResponse
          { Message := resolvedMessage cfg golib e F,
            RawError := if cfg.ReturnRawError then e.Error else "" }) =
          Except.ok ("\x7b\"message\":" ++ json.quote (resolvedMessage cfg golib e F) ++
            "" ++ "\x7d") := by
        simp [golib, json.Marshal, json.marshalErrorResponse, hr, he]
      exact Respond_body_writer cfg golib w _ _ _ hfresh h1 h2 h3 h4 (Or.inl (by simp)) hm hf
    · intro hr
      rw [RespondErrorFallback_some]
      have hm : golib.Marshal (Payload.errorResponse
          { Message := resolvedMessage cfg golib e F,
            RawError := if cfg.ReturnRawError then e.Error else "" }) =
          Except.ok ("\x7b\"message\":" ++ json.quote (resolvedMessage cfg golib e F) ++
            "" ++ "\x7d") := by
        simp [golib, json.Marshal, json.marshalErrorResponse, hr]
      exact Respond_body_writer cfg golib w _ _ _ hfresh h1 h2 h3 h4 (Or.inl (by simp)) hm hf

/-- C4, amended, at concrete inputs: the plain error `boom` under the fallback
500, with raw-error echoing on and with it off. -/
theorem RespondErrorFallback_rawError_witness :
    (RespondErrorFallback ⟨true, 500, "", true⟩ golib (ResponseWriter.fresh none)
        (some ⟨"boom", none⟩) 500).writer.map ResponseWriter.body =
      some ("" ++ ("\x7b\"message\":" ++
        json.quote (resolvedMessage ⟨true, 500, "", true⟩ golib ⟨"boom", none⟩ 500) ++
        (",\"rawError\":" ++ json.quote "boom") ++ "\x7d")) ∧
    (RespondErrorFallback ⟨true, 500, "", false⟩ golib (ResponseWriter.fresh none)
        (some ⟨"boom", none⟩) 500).writer.map ResponseWriter.body =
      some ("" ++ ("\x7b\"message\":" ++
        json.quote (resolvedMessage ⟨true, 500, "", false⟩ golib ⟨"boom", none⟩ 500) ++
        "" ++ "\x7d")) :=
  ⟨((RespondErrorFallback_rawError ⟨true, 500, "", true⟩ golib (ResponseWriter.fresh none)
      ⟨"boom", none⟩ 500).2.2 rfl (by decide) (by decide) (by decide) (by decide) rfl).1
      rfl (by decide),
    ((RespondErrorFallback_rawError ⟨true, 500, "", false⟩ golib (ResponseWriter.fresh none)
      ⟨"boom", none⟩ 500).2.2 rfl (by decide) (by decide) (by decide) (by decide) rfl).2.2
      rfl⟩

/-- C7, as stated, fails: with `ReturnRawError` on, a nil error makes both
`RespondErrorFallback` and `RespondError` panic at `err.Error()`; and a
non-nil error makes them panic in `WriteHeader` when the status code they
resolve is 0, as the fallback or as `DefaultStatusCode`. -/
theorem RespondError_panics_counterexample :
    RespondErrorFallback ⟨true, 500, "", true⟩ golib (ResponseWriter.fresh none) none 400 =
      Outcome.panicked ∧
    RespondError ⟨true, 500, "", true⟩ golib (ResponseWriter.fresh none) none =
      Outcome.panicked ∧
    RespondErrorFallback ⟨true, 500, "", false⟩ golib (ResponseWriter.fresh none)
        (some ⟨"boom", none⟩) 0 = Outcome.panicked ∧
    RespondError ⟨false, 0, "", false⟩ golib (ResponseWriter.fresh none)
        (some ⟨"boom", none⟩) = Outcome.panicked := by
  decide

/-- C7, amended. For a non-nil error under every configuration, and for a nil
error when `ReturnRawError` is off, `RespondErrorFallback` returns when the
status code it hands to `Respond` (the error's own for a `hapiError`, the
fallback otherwise) lies in 100..999, and `RespondError` returns when the one
it resolves from `DefaultStatusCode` does: the call ends with an error value
and a writer, not with a panic. -/
theorem RespondError_returns {α : Type} (cfg : Config) (lib : Lib α) (w : ResponseWriter)
    (err : Option GoError) (F : Int) (h : err ≠ none ∨ cfg.ReturnRawError = false) :
    (100 ≤ statusCodeFor err F → statusCodeFor err F ≤ 999 →
      ∃ r w1, RespondErrorFallback cfg lib w err F = Outcome.returned r w1) ∧
    (100 ≤ statusCodeFor err cfg.DefaultStatusCode →
      statusCodeFor err cfg.DefaultStatusCode ≤ 999 →
      ∃ r w1, RespondError cfg lib w err = Outcome.returned r w1) := by
  have key : ∀ G : Int, 100 ≤ statusCodeFor err G → statusCodeFor err G ≤ 999 →
      ∃ r w1, RespondErrorFallback cfg lib w err G = Outcome.returned r w1 := by
    intro G h1 h2
    obtain ⟨p, hp⟩ := RespondErrorFallback_calls_Respond cfg lib w err G h
    obtain ⟨w1, hw⟩ := afterHeader_returns w (statusCodeFor err G) (Or.inr ⟨h1, h2⟩)
    rw [hp]
    exact Respond_returns cfg lib w w1 _ _ hw
  exact ⟨key F, key cfg.DefaultStatusCode⟩

/-- C7, amended, at concrete inputs: a plain error with `ReturnRawError` on,
and a nil error with `ReturnRawError` off, under the fallback 400 and the
default status code 500. -/
theorem RespondError_returns_witness :
    ((∃ r w1, RespondErrorFallback ⟨true, 500, "", true⟩ golib (ResponseWriter.fresh none)
        (some ⟨"boom", none⟩) 400 = Outcome.returned r w1) ∧
      (∃ r w1, RespondError ⟨true, 500, "", true⟩ golib (ResponseWriter.fresh none)
        (some ⟨"boom", none⟩) = Outcome.returned r w1)) ∧
    ((∃ r w1, RespondErrorFallback ⟨true, 500, "", false⟩ golib (ResponseWriter.fresh none)
        none 400 = Outcome.returned r w1) ∧
      (∃ r w1, RespondError ⟨true, 500, "", false⟩ golib (ResponseWriter.fresh none)
        none = Outcome.returned r w1)) :=
  ⟨⟨(RespondError_returns ⟨true, 500, "", true⟩ golib (ResponseWriter.fresh none)
        (some ⟨"boom", none⟩) 400 (Or.inl (by decide))).1 (by decide) (by decide),
      (RespondError_returns ⟨true, 500, "", true⟩ golib (ResponseWriter.fresh none)
        (some ⟨"boom", none⟩) 400 (Or.inl (by decide))).2 (by decide) (by decide)⟩,
    ⟨(RespondError_returns ⟨true, 500, "", false⟩ golib (ResponseWriter.fresh none)
        none 400 (Or.inr rfl)).1 (by decide) (by decide),
      (RespondError_returns ⟨true, 500, "", false⟩ golib (ResponseWriter.fresh none)
        none 400 (Or.inr rfl)).2 (by decide) (by decide)⟩⟩

/-- C8, as stated, fails in its last part: under the configuration whose
`DefaultStatusCode` is 0 a plain error is not answered with status 0,
`RespondError` panics in `WriteHeader`. -/
theorem RespondError_eq_Fallback_counterexample :
    RespondError ⟨true, 0, "oops", false⟩ golib (ResponseWriter.fresh none)
        (some ⟨"disk full", none⟩) = Outcome.panicked := by
  decide

/-- C8, amended. `RespondError(w, err)` has the outcome of
`RespondErrorFallback(w, err, Config.DefaultStatusCode)`: the same returned
error and the same writer (or the same panic), for every `err`, nil included.
In particular an error that is not a `hapiError` is answered, on a writer
whose status line is not yet written, with status `DefaultStatusCode` when
that lies in 200..999. -/
theorem RespondError_eq_Fallback {α : Type} (cfg : Config) (lib : Lib α)
    (w : ResponseWriter) (err : Option GoError) :
    RespondError cfg lib w err = RespondErrorFallback cfg lib w err cfg.DefaultStatusCode ∧
    (∀ e : GoError, e.asHapi = none → w.wroteHeader = false →
      200 ≤ cfg.DefaultStatusCode → cfg.DefaultStatusCode ≤ 999 →
      (RespondError cfg lib w (some e)).writer.map ResponseWriter.status =
        some cfg.DefaultStatusCode) := by
  refine ⟨rfl, ?_⟩
  intro e hp hfresh h1 h2
  show (RespondErrorFallback cfg lib w (some e) cfg.DefaultStatusCode).writer.map
    ResponseWriter.status = some cfg.DefaultStatusCode
  have hc : resolvedStatusCode e cfg.DefaultStatusCode = cfg.DefaultStatusCode := by
    simp [resolvedStatusCode, hp]
  rw [RespondErrorFallback_some, hc]
  exact Respond_status_writer cfg lib w _ _ hfresh h1 h2

/-- C8, amended, at a concrete input: a plain error under the default status
502. -/
theorem RespondError_eq_Fallback_witness :
    (RespondError ⟨true, 502, "", false⟩ golib (ResponseWriter.fresh none)
        (some ⟨"boom", none⟩)).writer.map ResponseWriter.status =
      some (Config.mk true 502 "" false).DefaultStatusCode :=
  (RespondError_eq_Fallback ⟨true, 502, "", false⟩ golib (ResponseWriter.fresh none)
    (some ⟨"boom", none⟩)).2 ⟨"boom", none⟩ rfl rfl (by decide) (by decide)

/-- C10. When the message of step 1 is empty (the `GetMessage` of a
`hapiError`, or `DefaultErrorMessage` for a plain error), the `ErrorResponse`
handed to `Respond` carries the status text of the resolved status code, which
is the error's own code for a `hapiError` and the fallback otherwise.  In
every case the message handed to `Respond` is not empty when the resolved
status code has a status text. -/
theorem RespondErrorFallback_status_text {α : Type} (cfg : Config) (lib : Lib α)
    (w : ResponseWriter) (e : GoError) (F : Int) :
    (step1Message cfg e = "" →
      RespondErrorFallback cfg lib w (some e) F =
        Respond cfg lib w (resolvedStatusCode e F)
          (Payload.errorResponse
            { Message := lib.StatusText (resolvedStatusCode e F),
              RawError := if cfg.ReturnRawError then e.Error else "" })) ∧
    (∀ h, e.asHapi = some h →
      step1Message cfg e = h.GetMessage ∧ resolvedStatusCode e F = h.GetStatusCode) ∧
    (e.asHapi = none →
      step1Message cfg e = cfg.DefaultErrorMessage ∧ resolvedStatusCode e F = F) ∧
    (RespondErrorFallback cfg lib w (some e) F =
        Respond cfg lib w (resolvedStatusCode e F)
          (Payload.errorResponse
            { Message := resolvedMessage cfg lib e F,
              RawError := if cfg.ReturnRawError then e.Error else "" }) ∧
      (lib.StatusText (resolvedStatusCode e F) ≠ "" → resolvedMessage cfg lib e F ≠ "")) := by
  refine ⟨?_, ?_, ?_, RespondErrorFallback_some cfg lib w e F, ?_⟩
  · intro hempty
    rw [RespondErrorFallback_some]
    simp [resolvedMessage, hempty]
  · intro h hh
    simp [step1Message, resolvedStatusCode, hh]
  · intro hp
    simp [step1Message, resolvedStatusCode, hp]
  · intro hst
    unfold resolvedMessage
    by_cases hm : step1Message cfg e = ""
    · rw [if_pos hm]
      exact hst
    · rw [if_neg hm]
      exact hm

/-- C10, at a concrete input: a `hapiError` with status 418 and an empty
message, the fallback being 500; the message is the text of 418. -/
theorem RespondErrorFallback_status_text_witness :
    RespondErrorFallback ⟨true, 500, "oops", false⟩ golib (ResponseWriter.fresh none)
        (some ⟨"boom", some ⟨418, ""⟩⟩) 500 =
      Respond ⟨true, 500, "oops", false⟩ golib (ResponseWriter.fresh none)
        (resolvedStatusCode ⟨"boom", some ⟨418, ""⟩⟩ 500)
        (Payload.errorResponse
          { Message := golib.StatusText (resolvedStatusCode ⟨"boom", some ⟨418, ""⟩⟩ 500),
            RawError := if (Config.mk true 500 "oops" false).ReturnRawError
              then (GoError.mk "boom" (some ⟨418, ""⟩)).Error else "" }) ∧
    resolvedMessage ⟨true, 500, "oops", false⟩ golib ⟨"boom", some ⟨418, ""⟩⟩ 500 ≠ "" :=
  ⟨(RespondErrorFallback_status_text ⟨true, 500, "oops", false⟩ golib
      (ResponseWriter.fresh none) ⟨"boom", some ⟨418, ""⟩⟩ 500).1 rfl,
    (RespondErrorFallback_status_text ⟨true, 500, "oops", false⟩ golib
      (ResponseWriter.fresh none) ⟨"boom", some ⟨418, ""⟩⟩ 500).2.2.2.2 (by decide)⟩

end hapi
